import Mathlib

/-! Connection statistics of the conferencing client SDK.

A shallow embedding of `talk/woogeen/sdk/include/cpp/woogeen/base/connectionstats.h`
(the report structs, `VideoBandwidthStats`, `ConnectionStats`), followed by the properties
stated about them.  `talk/ics/sdk/base/mediautils.h` only declares its three functions; their
bodies and the codec enumerations are not part of the sources, so nothing of it is embedded.

Conventions of the embedding.

* `int32_t` and `int64_t` are `Int`.  The header performs no arithmetic on them, so no
  wrap-around is modelled; `isInt32` and `isInt64` give the representable ranges and are used
  where a concrete input has to be one the C++ code can receive.
* `std::string` is `String`, `std::vector<std::unique_ptr<T>>` is `List T` and `push_back` is
  appending at the end.
* A C++ constructor is a function from its arguments to the struct.  A member that the
  constructor's initialiser list does not mention keeps whatever its storage held before; that
  prior content is an explicit first argument of the embedded constructor.
-/

namespace woogeen
namespace base

/-- The 32-bit signed integers of the header, as mathematical integers. -/
abbrev int32_t := Int

/-- The 64-bit signed integers of the header, as mathematical integers. -/
abbrev int64_t := Int

/-- Range of a C++ `int32_t`. -/
def isInt32 (x : Int) : Prop := -2147483648 ≤ x ∧ x ≤ 2147483647

instance (x : Int) : Decidable (isInt32 x) := by
  unfold isInt32; exact inferInstance

/-- Range of a C++ `int64_t`. -/
def isInt64 (x : Int) : Prop := -9223372036854775808 ≤ x ∧ x ≤ 9223372036854775807

instance (x : Int) : Decidable (isInt64 x) := by
  unfold isInt64; exact inferInstance

/-- Modelled from the spec: `Resolution` is declared in `woogeen/base/mediaformat.h`, which is
not among the sources; only its use `Resolution(width, height)` is.  The spec calls it a
width/height pair and says that this layer validates nothing, so the pair holds the two integers
it is built from, width first. -/
structure Resolution where
  width : int32_t
  height : int32_t
  deriving DecidableEq, Repr

/-! ## Audio reports -/

/-- Audio sender report: the members of `struct AudioSenderReport`. -/
structure AudioSenderReport where
  bytes_sent : int64_t
  packets_sent : int32_t
  packets_lost : int32_t
  round_trip_time : int64_t
  codec_name : String
  deriving DecidableEq, Repr

/-- Constructor `AudioSenderReport::AudioSenderReport`: every member is initialised from the
argument of the same name. -/
def AudioSenderReport.ctor (bytes_sent : int64_t) (packets_sent : int32_t)
    (packets_lost : int32_t) (round_trip_time : int64_t) (codec_name : String) :
    AudioSenderReport :=
  { bytes_sent := bytes_sent, packets_sent := packets_sent, packets_lost := packets_lost,
    round_trip_time := round_trip_time, codec_name := codec_name }

/-- Audio receiver report: the members of `struct AudioReceiverReport`. -/
structure AudioReceiverReport where
  bytes_rcvd : int64_t
  packets_rcvd : int32_t
  packets_lost : int32_t
  estimated_delay : int32_t
  codec_name : String
  deriving DecidableEq, Repr

/-- Constructor `AudioReceiverReport::AudioReceiverReport`. -/
def AudioReceiverReport.ctor (bytes_rcvd : int64_t) (packets_rcvd : int32_t)
    (packets_lost : int32_t) (estimated_delay : int32_t) (codec_name : String) :
    AudioReceiverReport :=
  { bytes_rcvd := bytes_rcvd, packets_rcvd := packets_rcvd, packets_lost := packets_lost,
    estimated_delay := estimated_delay, codec_name := codec_name }

/-! ## Video sender report -/

/-- The scoped enumeration `VideoSenderReport::AdaptReason`. -/
inductive AdaptReason where
  | kUnknown
  | kCpuLimitation
  | kBandwidthLimitation
  | kViewLimitation
  deriving DecidableEq, Repr

/-- Underlying `int32_t` value of each enumerator, as written in the header. -/
def AdaptReason.value : AdaptReason → int32_t
  | .kUnknown => 0
  | .kCpuLimitation => 1
  | .kBandwidthLimitation => 2
  | .kViewLimitation => 4

/-- Video sender report: the members of `struct VideoSenderReport`, in declaration order. -/
structure VideoSenderReport where
  bytes_sent : int64_t
  packets_sent : int32_t
  packets_lost : int32_t
  fir_count : int32_t
  pli_count : int32_t
  nack_count : int32_t
  frame_resolution_sent : Resolution
  framerate_sent : int32_t
  last_adapt_reason : int32_t
  adapt_changes : int32_t
  round_trip_time : int64_t
  codec_name : String
  deriving DecidableEq, Repr

/-- Constructor `VideoSenderReport::VideoSenderReport`.  The height argument precedes the width
argument, and the resolution is built as `Resolution(sent_frame_width, sent_frame_height)`. -/
def VideoSenderReport.ctor (bytes_sent : int64_t) (packets_sent : int32_t)
    (packets_lost : int32_t) (fir_count : int32_t) (pli_count : int32_t) (nack_count : int32_t)
    (sent_frame_height : int32_t) (sent_frame_width : int32_t) (framerate_sent : int32_t)
    (last_adapt_reason : int32_t) (adapt_changes : int32_t) (round_trip_time : int64_t)
    (codec_name : String) : VideoSenderReport :=
  { bytes_sent := bytes_sent, packets_sent := packets_sent, packets_lost := packets_lost,
    fir_count := fir_count, pli_count := pli_count, nack_count := nack_count,
    frame_resolution_sent := Resolution.mk sent_frame_width sent_frame_height,
    framerate_sent := framerate_sent, last_adapt_reason := last_adapt_reason,
    adapt_changes := adapt_changes, round_trip_time := round_trip_time,
    codec_name := codec_name }

/-! ## Video receiver report -/

/-- Video receiver report: the members of `struct VideoReceiverReport`, in declaration order. -/
structure VideoReceiverReport where
  bytes_rcvd : int64_t
  packets_rcvd : int32_t
  packets_lost : int32_t
  fir_count : int32_t
  pli_count : int32_t
  nack_count : int32_t
  frame_resolution_rcvd : Resolution
  framerate_rcvd : int32_t
  framerate_output : int32_t
  delay : int32_t
  codec_name : String
  deriving DecidableEq, Repr

/-- Constructor `VideoReceiverReport::VideoReceiverReport`.  Its initialiser list names
`bytes_rcvd, packets_rcvd, packets_lost, fir_count, pli_count, nack_count,
frame_resolution_rcvd, framerate_output, delay, codec_name`: the member `framerate_rcvd` is not
in it, so the parameter `framerate_rcvd` is unused and the member keeps the prior content
`storage_framerate_rcvd` of its storage. -/
def VideoReceiverReport.ctor (storage_framerate_rcvd : int32_t)
    (bytes_rcvd : int64_t) (packets_rcvd : int32_t) (packets_lost : int32_t)
    (fir_count : int32_t) (pli_count : int32_t) (nack_count : int32_t)
    (rcvd_frame_height : int32_t) (rcvd_frame_width : int32_t) (_framerate_rcvd : int32_t)
    (framerate_output : int32_t) (delay : int32_t) (codec_name : String) :
    VideoReceiverReport :=
  { bytes_rcvd := bytes_rcvd, packets_rcvd := packets_rcvd, packets_lost := packets_lost,
    fir_count := fir_count, pli_count := pli_count, nack_count := nack_count,
    frame_resolution_rcvd := Resolution.mk rcvd_frame_width rcvd_frame_height,
    framerate_rcvd := storage_framerate_rcvd,
    framerate_output := framerate_output, delay := delay, codec_name := codec_name }

/-! ## Bandwidth statistics and the aggregate -/

/-- Video bandwidth statistics: the members of `struct VideoBandwidthStats`. -/
structure VideoBandwidthStats where
  available_send_bandwidth : int32_t
  available_receive_bandwidth : int32_t
  transmit_bitrate : int32_t
  retransmit_bitrate : int32_t
  deriving DecidableEq, Repr

/-- Default constructor `VideoBandwidthStats::VideoBandwidthStats()`. -/
def VideoBandwidthStats.ctor : VideoBandwidthStats :=
  { available_send_bandwidth := 0, available_receive_bandwidth := 0,
    transmit_bitrate := 0, retransmit_bitrate := 0 }

/-- Connection statistics: the members of `struct ConnectionStats`.  The time stamp is a
`std::chrono::system_clock::time_point`, kept as an integer tick count. -/
structure ConnectionStats where
  time_stamp : Int
  video_bandwidth_stats : VideoBandwidthStats
  audio_sender_reports : List AudioSenderReport
  audio_receiver_reports : List AudioReceiverReport
  video_sender_reports : List VideoSenderReport
  video_receiver_reports : List VideoReceiverReport
  deriving DecidableEq, Repr

/-- Default constructor `ConnectionStats::ConnectionStats()`: the time stamp is the clock reading
`now` taken at construction, the bandwidth statistics are default-constructed and the four
vectors are empty. -/
def ConnectionStats.ctor (now : Int) : ConnectionStats :=
  { time_stamp := now, video_bandwidth_stats := VideoBandwidthStats.ctor,
    audio_sender_reports := [], audio_receiver_reports := [],
    video_sender_reports := [], video_receiver_reports := [] }

/-- One population step of a `ConnectionStats`: a `push_back` of an owned report on one of the
four report vectors. -/
inductive Append where
  | audio_sender (r : AudioSenderReport)
  | audio_receiver (r : AudioReceiverReport)
  | video_sender (r : VideoSenderReport)
  | video_receiver (r : VideoReceiverReport)
  deriving DecidableEq, Repr

/-- The effect of `push_back` on the vector the step names; the other members are untouched. -/
def ConnectionStats.push_back (s : ConnectionStats) : Append → ConnectionStats
  | .audio_sender r => { s with audio_sender_reports := s.audio_sender_reports ++ [r] }
  | .audio_receiver r => { s with audio_receiver_reports := s.audio_receiver_reports ++ [r] }
  | .video_sender r => { s with video_sender_reports := s.video_sender_reports ++ [r] }
  | .video_receiver r => { s with video_receiver_reports := s.video_receiver_reports ++ [r] }

/-- Populating a `ConnectionStats` with a sequence of appends, performed in order. -/
def ConnectionStats.populate (s : ConnectionStats) (steps : List Append) : ConnectionStats :=
  steps.foldl ConnectionStats.push_back s

/-- The audio sender report a step appends, if it is such a step. -/
def Append.toAudioSender : Append → Option AudioSenderReport
  | .audio_sender r => some r
  | _ => none

/-- The audio receiver report a step appends, if it is such a step. -/
def Append.toAudioReceiver : Append → Option AudioReceiverReport
  | .audio_receiver r => some r
  | _ => none

/-- The video sender report a step appends, if it is such a step. -/
def Append.toVideoSender : Append → Option VideoSenderReport
  | .video_sender r => some r
  | _ => none

/-- The video receiver report a step appends, if it is such a step. -/
def Append.toVideoReceiver : Append → Option VideoReceiverReport
  | .video_receiver r => some r
  | _ => none

/-! ## Combined adapt reasons -/

/-- A subset of the three limitation reasons, given by its three membership bits. -/
structure ReasonSet where
  cpu : Bool
  bandwidth : Bool
  view : Bool
  deriving DecidableEq, Repr

/-- Membership of an enumerator in a subset; `kUnknown` is the empty combination and belongs to
no subset. -/
def ReasonSet.contains (S : ReasonSet) : AdaptReason → Bool
  | .kUnknown => false
  | .kCpuLimitation => S.cpu
  | .kBandwidthLimitation => S.bandwidth
  | .kViewLimitation => S.view

/-- The members of a subset, as a list of enumerators. -/
def ReasonSet.members (S : ReasonSet) : List AdaptReason :=
  [AdaptReason.kCpuLimitation, AdaptReason.kBandwidthLimitation,
    AdaptReason.kViewLimitation].filter S.contains

/-- The combined `int32_t` value of a subset: the bitwise OR of the values of its members. -/
def ReasonSet.combined (S : ReasonSet) : int32_t :=
  S.members.foldl (fun acc c => Int.lor acc c.value) 0

/-- Masking a stored `last_adapt_reason` against a named constant. -/
def hasReason (v : int32_t) (c : AdaptReason) : Bool :=
  decide (Int.land v c.value = c.value)

/-- The subset read back from a combined value by masking against the three constants. -/
def ReasonSet.ofCombined (v : int32_t) : ReasonSet :=
  { cpu := hasReason v AdaptReason.kCpuLimitation,
    bandwidth := hasReason v AdaptReason.kBandwidthLimitation,
    view := hasReason v AdaptReason.kViewLimitation }

end base
end woogeen

/-! # Properties -/

namespace woogeen
namespace base

/-! ## Helper lemmas -/

theorem populate_audio_sender (steps : List Append) (s : ConnectionStats) :
    (s.populate steps).audio_sender_reports =
      s.audio_sender_reports ++ steps.filterMap Append.toAudioSender := by
  induction steps generalizing s with
  | nil => simp [ConnectionStats.populate]
  | cons step rest ih =>
    have h := ih (s.push_back step)
    simp only [ConnectionStats.populate, List.foldl_cons] at h ⊢
    rw [h]
    cases step <;> simp [ConnectionStats.push_back, Append.toAudioSender]

theorem populate_audio_receiver (steps : List Append) (s : ConnectionStats) :
    (s.populate steps).audio_receiver_reports =
      s.audio_receiver_reports ++ steps.filterMap Append.toAudioReceiver := by
  induction steps generalizing s with
  | nil => simp [ConnectionStats.populate]
  | cons step rest ih =>
    have h := ih (s.push_back step)
    simp only [ConnectionStats.populate, List.foldl_cons] at h ⊢
    rw [h]
    cases step <;> simp [ConnectionStats.push_back, Append.toAudioReceiver]

theorem populate_video_sender (steps : List Append) (s : ConnectionStats) :
    (s.populate steps).video_sender_reports =
      s.video_sender_reports ++ steps.filterMap Append.toVideoSender := by
  induction steps generalizing s with
  | nil => simp [ConnectionStats.populate]
  | cons step rest ih =>
    have h := ih (s.push_back step)
    simp only [ConnectionStats.populate, List.foldl_cons] at h ⊢
    rw [h]
    cases step <;> simp [ConnectionStats.push_back, Append.toVideoSender]

theorem populate_video_receiver (steps : List Append) (s : ConnectionStats) :
    (s.populate steps).video_receiver_reports =
      s.video_receiver_reports ++ steps.filterMap Append.toVideoReceiver := by
  induction steps generalizing s with
  | nil => simp [ConnectionStats.populate]
  | cons step rest ih =>
    have h := ih (s.push_back step)
    simp only [ConnectionStats.populate, List.foldl_cons] at h ⊢
    rw [h]
    cases step <;> simp [ConnectionStats.push_back, Append.toVideoReceiver]

end base
end woogeen

/-! ## The claims -/

namespace woogeen
namespace base

/-- C1 (evaluated on the code): the constructor of `VideoReceiverReport` never initialises the
member `framerate_rcvd`.  For every argument tuple the member reads back as the prior content of
its storage, whatever the `framerate_rcvd` argument is, while the neighbouring member
`framerate_output` equals its argument.
At the input `(1000, 10, 1, 0, 0, 0, 480, 640, 30, 25, 20, "vp8")` built in zeroed storage the
member reads `0`, not the argument `30`. -/
theorem video_receiver_framerate_rcvd_uninitialised :
    (∀ (storage : int32_t) (bytes_rcvd : int64_t)
        (packets_rcvd packets_lost fir_count pli_count nack_count rcvd_frame_height
          rcvd_frame_width framerate_rcvd framerate_output delay : int32_t)
        (codec_name : String),
        (VideoReceiverReport.ctor storage bytes_rcvd packets_rcvd packets_lost fir_count
            pli_count nack_count rcvd_frame_height rcvd_frame_width framerate_rcvd
            framerate_output delay codec_name).framerate_rcvd = storage ∧
        (VideoReceiverReport.ctor storage bytes_rcvd packets_rcvd packets_lost fir_count
            pli_count nack_count rcvd_frame_height rcvd_frame_width framerate_rcvd
            framerate_output delay codec_name).framerate_output = framerate_output) ∧
    isInt32 30 ∧ isInt32 0 ∧
    (VideoReceiverReport.ctor 0 1000 10 1 0 0 0 480 640 30 25 20 "vp8").framerate_rcvd = 0 ∧
    (VideoReceiverReport.ctor 0 1000 10 1 0 0 0 480 640 30 25 20 "vp8").framerate_rcvd ≠ 30 ∧
    (VideoReceiverReport.ctor 0 1000 10 1 0 0 0 480 640 30 25 20 "vp8").framerate_output = 25 := by
  refine ⟨fun _ _ _ _ _ _ _ _ _ _ _ _ _ => ⟨rfl, rfl⟩, ?_, ?_, ?_, ?_, ?_⟩ <;> decide

/-- C2: for every argument tuple the five members of the `AudioSenderReport` built by the
constructor equal the five arguments unchanged; constructing with `(1000, 10, 1, 50, "opus")`
yields exactly those five values. -/
theorem audio_sender_report_fields (bytes_sent : int64_t) (packets_sent packets_lost : int32_t)
    (round_trip_time : int64_t) (codec_name : String) :
    (AudioSenderReport.ctor bytes_sent packets_sent packets_lost round_trip_time
        codec_name).bytes_sent = bytes_sent ∧
    (AudioSenderReport.ctor bytes_sent packets_sent packets_lost round_trip_time
        codec_name).packets_sent = packets_sent ∧
    (AudioSenderReport.ctor bytes_sent packets_sent packets_lost round_trip_time
        codec_name).packets_lost = packets_lost ∧
    (AudioSenderReport.ctor bytes_sent packets_sent packets_lost round_trip_time
        codec_name).round_trip_time = round_trip_time ∧
    (AudioSenderReport.ctor bytes_sent packets_sent packets_lost round_trip_time
        codec_name).codec_name = codec_name ∧
    (AudioSenderReport.ctor 1000 10 1 50 "opus").bytes_sent = 1000 ∧
    (AudioSenderReport.ctor 1000 10 1 50 "opus").packets_sent = 10 ∧
    (AudioSenderReport.ctor 1000 10 1 50 "opus").packets_lost = 1 ∧
    (AudioSenderReport.ctor 1000 10 1 50 "opus").round_trip_time = 50 ∧
    (AudioSenderReport.ctor 1000 10 1 50 "opus").codec_name = "opus" :=
  ⟨rfl, rfl, rfl, rfl, rfl, rfl, rfl, rfl, rfl, rfl⟩

/-- C3: a default-constructed `ConnectionStats` populated by any sequence of appends (any
interleaving of the four kinds) exposes, in each of its four report sequences, exactly the
reports appended to that sequence, in the order they were appended: the lengths are the numbers
of appends of each kind and the i-th element is the i-th report appended to that sequence. -/
theorem connection_stats_sequences (now : Int) (steps : List Append) :
    ((ConnectionStats.ctor now).populate steps).audio_sender_reports =
        steps.filterMap Append.toAudioSender ∧
    ((ConnectionStats.ctor now).populate steps).audio_receiver_reports =
        steps.filterMap Append.toAudioReceiver ∧
    ((ConnectionStats.ctor now).populate steps).video_sender_reports =
        steps.filterMap Append.toVideoSender ∧
    ((ConnectionStats.ctor now).populate steps).video_receiver_reports =
        steps.filterMap Append.toVideoReceiver ∧
    ((ConnectionStats.ctor now).populate steps).audio_sender_reports.length =
        (steps.filterMap Append.toAudioSender).length ∧
    ((ConnectionStats.ctor now).populate steps).audio_receiver_reports.length =
        (steps.filterMap Append.toAudioReceiver).length ∧
    ((ConnectionStats.ctor now).populate steps).video_sender_reports.length =
        (steps.filterMap Append.toVideoSender).length ∧
    ((ConnectionStats.ctor now).populate steps).video_receiver_reports.length =
        (steps.filterMap Append.toVideoReceiver).length ∧
    (∀ i : Nat,
      ((ConnectionStats.ctor now).populate steps).audio_sender_reports[i]? =
          (steps.filterMap Append.toAudioSender)[i]? ∧
      ((ConnectionStats.ctor now).populate steps).audio_receiver_reports[i]? =
          (steps.filterMap Append.toAudioReceiver)[i]? ∧
      ((ConnectionStats.ctor now).populate steps).video_sender_reports[i]? =
          (steps.filterMap Append.toVideoSender)[i]? ∧
      ((ConnectionStats.ctor now).populate steps).video_receiver_reports[i]? =
          (steps.filterMap Append.toVideoReceiver)[i]?) := by
  have h1 := (populate_audio_sender steps (ConnectionStats.ctor now)).trans
    (List.nil_append _)
  have h2 := (populate_audio_receiver steps (ConnectionStats.ctor now)).trans
    (List.nil_append _)
  have h3 := (populate_video_sender steps (ConnectionStats.ctor now)).trans
    (List.nil_append _)
  have h4 := (populate_video_receiver steps (ConnectionStats.ctor now)).trans
    (List.nil_append _)
  refine ⟨h1, h2, h3, h4, ?_, ?_, ?_, ?_, ?_⟩
  · rw [h1]
  · rw [h2]
  · rw [h3]
  · rw [h4]
  · intro i
    rw [h1, h2, h3, h4]
    exact ⟨rfl, rfl, rfl, rfl⟩

/-- C4: a default-constructed `VideoBandwidthStats` has its four members equal to zero, and the
`video_bandwidth_stats` member of a default-constructed `ConnectionStats` is that all-zero
value. -/
theorem video_bandwidth_stats_default_zero :
    VideoBandwidthStats.ctor.available_send_bandwidth = 0 ∧
    VideoBandwidthStats.ctor.available_receive_bandwidth = 0 ∧
    VideoBandwidthStats.ctor.transmit_bitrate = 0 ∧
    VideoBandwidthStats.ctor.retransmit_bitrate = 0 ∧
    (∀ now : Int, (ConnectionStats.ctor now).video_bandwidth_stats = VideoBandwidthStats.ctor) ∧
    (∀ now : Int, (ConnectionStats.ctor now).video_bandwidth_stats =
      { available_send_bandwidth := 0, available_receive_bandwidth := 0,
        transmit_bitrate := 0, retransmit_bitrate := 0 }) :=
  ⟨rfl, rfl, rfl, rfl, fun _ => rfl, fun _ => rfl⟩

/-- C5: the `AdaptReason` constants are 0, 1, 2 and 4, and for every subset `S` of the three
limitation reasons the bitwise OR `v` of its members satisfies, for each constant `c`,
`v AND c = c` when `c` is in `S` and `v AND c = 0` when it is not; `v` fits an `int32_t`,
distinct subsets have distinct combined values, and masking against the constants recovers
`S`. -/
theorem adapt_reason_combination :
    AdaptReason.kUnknown.value = 0 ∧ AdaptReason.kCpuLimitation.value = 1 ∧
    AdaptReason.kBandwidthLimitation.value = 2 ∧ AdaptReason.kViewLimitation.value = 4 ∧
    (∀ (S : ReasonSet) (c : AdaptReason),
      Int.land S.combined c.value = if S.contains c = true then c.value else 0) ∧
    (∀ (S : ReasonSet) (c : AdaptReason), c ∈ S.members ↔ (S.contains c = true)) ∧
    (∀ S : ReasonSet, isInt32 S.combined) ∧
    (∀ S T : ReasonSet, S.combined = T.combined ↔ S = T) ∧
    (∀ S : ReasonSet, ReasonSet.ofCombined S.combined = S) := by
  refine ⟨rfl, rfl, rfl, rfl, ?_, ?_, ?_, ?_, ?_⟩
  · rintro ⟨a, b, c⟩ r
    cases a <;> cases b <;> cases c <;> cases r <;> decide
  · rintro ⟨a, b, c⟩ r
    cases a <;> cases b <;> cases c <;> cases r <;> decide
  · rintro ⟨a, b, c⟩
    cases a <;> cases b <;> cases c <;> decide
  · rintro ⟨a, b, c⟩ ⟨d, e, f⟩
    cases a <;> cases b <;> cases c <;> cases d <;> cases e <;> cases f <;> decide
  · rintro ⟨a, b, c⟩
    cases a <;> cases b <;> cases c <;> decide

end base
end woogeen

namespace woogeen
namespace base

/-- C6 (evaluated on the code): two constructions of a `VideoReceiverReport` from one argument
tuple are equal only when the storage of `framerate_rcvd` held the same content before, since
the constructor leaves that member uninitialised.  With the tuple
`(1000, 10, 1, 0, 0, 0, 480, 640, 30, 25, 20, "vp8")`, one construction in storage holding `0`
and one in storage holding `1` give reports whose `framerate_rcvd` are `0` and `1`. -/
theorem video_receiver_constructions_differ :
    (∀ (storage₁ storage₂ : int32_t) (bytes_rcvd : int64_t)
        (packets_rcvd packets_lost fir_count pli_count nack_count rcvd_frame_height
          rcvd_frame_width framerate_rcvd framerate_output delay : int32_t)
        (codec_name : String),
        VideoReceiverReport.ctor storage₁ bytes_rcvd packets_rcvd packets_lost fir_count
            pli_count nack_count rcvd_frame_height rcvd_frame_width framerate_rcvd
            framerate_output delay codec_name =
          VideoReceiverReport.ctor storage₂ bytes_rcvd packets_rcvd packets_lost fir_count
            pli_count nack_count rcvd_frame_height rcvd_frame_width framerate_rcvd
            framerate_output delay codec_name ↔ storage₁ = storage₂) ∧
    isInt32 0 ∧ isInt32 1 ∧
    (VideoReceiverReport.ctor 0 1000 10 1 0 0 0 480 640 30 25 20 "vp8").framerate_rcvd = 0 ∧
    (VideoReceiverReport.ctor 1 1000 10 1 0 0 0 480 640 30 25 20 "vp8").framerate_rcvd = 1 ∧
    VideoReceiverReport.ctor 0 1000 10 1 0 0 0 480 640 30 25 20 "vp8" ≠
      VideoReceiverReport.ctor 1 1000 10 1 0 0 0 480 640 30 25 20 "vp8" := by
  refine ⟨?_, by decide, by decide, rfl, rfl, by decide⟩
  intro s₁ s₂ _ _ _ _ _ _ _ _ _ _ _ _
  constructor
  · intro h
    exact congrArg VideoReceiverReport.framerate_rcvd h
  · intro h
    rw [h]

/-- C9: for every argument tuple the eleven scalar members of the `VideoSenderReport` built by
the constructor equal the arguments of the same name unchanged; `last_adapt_reason` is stored as
given for every integer, so 3, 8 and -1 are stored as 3, 8 and -1. -/
theorem video_sender_report_fields (bytes_sent : int64_t)
    (packets_sent packets_lost fir_count pli_count nack_count sent_frame_height
      sent_frame_width framerate_sent last_adapt_reason adapt_changes : int32_t)
    (round_trip_time : int64_t) (codec_name : String) :
    (VideoSenderReport.ctor bytes_sent packets_sent packets_lost fir_count pli_count nack_count
        sent_frame_height sent_frame_width framerate_sent last_adapt_reason adapt_changes
        round_trip_time codec_name).bytes_sent = bytes_sent ∧
    (VideoSenderReport.ctor bytes_sent packets_sent packets_lost fir_count pli_count nack_count
        sent_frame_height sent_frame_width framerate_sent last_adapt_reason adapt_changes
        round_trip_time codec_name).packets_sent = packets_sent ∧
    (VideoSenderReport.ctor bytes_sent packets_sent packets_lost fir_count pli_count nack_count
        sent_frame_height sent_frame_width framerate_sent last_adapt_reason adapt_changes
        round_trip_time codec_name).packets_lost = packets_lost ∧
    (VideoSenderReport.ctor bytes_sent packets_sent packets_lost fir_count pli_count nack_count
        sent_frame_height sent_frame_width framerate_sent last_adapt_reason adapt_changes
        round_trip_time codec_name).fir_count = fir_count ∧
    (VideoSenderReport.ctor bytes_sent packets_sent packets_lost fir_count pli_count nack_count
        sent_frame_height sent_frame_width framerate_sent last_adapt_reason adapt_changes
        round_trip_time codec_name).pli_count = pli_count ∧
    (VideoSenderReport.ctor bytes_sent packets_sent packets_lost fir_count pli_count nack_count
        sent_frame_height sent_frame_width framerate_sent last_adapt_reason adapt_changes
        round_trip_time codec_name).nack_count = nack_count ∧
    (VideoSenderReport.ctor bytes_sent packets_sent packets_lost fir_count pli_count nack_count
        sent_frame_height sent_frame_width framerate_sent last_adapt_reason adapt_changes
        round_trip_time codec_name).framerate_sent = framerate_sent ∧
    (VideoSenderReport.ctor bytes_sent packets_sent packets_lost fir_count pli_count nack_count
        sent_frame_height sent_frame_width framerate_sent last_adapt_reason adapt_changes
        round_trip_time codec_name).last_adapt_reason = last_adapt_reason ∧
    (VideoSenderReport.ctor bytes_sent packets_sent packets_lost fir_count pli_count nack_count
        sent_frame_height sent_frame_width framerate_sent last_adapt_reason adapt_changes
        round_trip_time codec_name).adapt_changes = adapt_changes ∧
    (VideoSenderReport.ctor bytes_sent packets_sent packets_lost fir_count pli_count nack_count
        sent_frame_height sent_frame_width framerate_sent last_adapt_reason adapt_changes
        round_trip_time codec_name).round_trip_time = round_trip_time ∧
    (VideoSenderReport.ctor bytes_sent packets_sent packets_lost fir_count pli_count nack_count
        sent_frame_height sent_frame_width framerate_sent last_adapt_reason adapt_changes
        round_trip_time codec_name).codec_name = codec_name ∧
    (VideoSenderReport.ctor bytes_sent packets_sent packets_lost fir_count pli_count nack_count
        sent_frame_height sent_frame_width framerate_sent 3 adapt_changes
        round_trip_time codec_name).last_adapt_reason = 3 ∧
    (VideoSenderReport.ctor bytes_sent packets_sent packets_lost fir_count pli_count nack_count
        sent_frame_height sent_frame_width framerate_sent 8 adapt_changes
        round_trip_time codec_name).last_adapt_reason = 8 ∧
    (VideoSenderReport.ctor bytes_sent packets_sent packets_lost fir_count pli_count nack_count
        sent_frame_height sent_frame_width framerate_sent (-1) adapt_changes
        round_trip_time codec_name).last_adapt_reason = -1 :=
  ⟨rfl, rfl, rfl, rfl, rfl, rfl, rfl, rfl, rfl, rfl, rfl, rfl, rfl, rfl⟩

/-- C10: in both video report constructors the frame height argument precedes the frame width
argument and the embedded resolution is `Resolution(width, height)`: its width is the
frame-width argument and its height the frame-height argument, never swapped.  With height 480
and width 640 the resolution is 640 wide and 480 high. -/
theorem video_resolution_argument_order (storage : int32_t) (bytes : int64_t)
    (packets lost fir pli nack h w framerate reason changes framerate_output delay : int32_t)
    (rtt : int64_t) (codec_name : String) :
    (VideoSenderReport.ctor bytes packets lost fir pli nack h w framerate reason changes rtt
        codec_name).frame_resolution_sent = Resolution.mk w h ∧
    (VideoSenderReport.ctor bytes packets lost fir pli nack h w framerate reason changes rtt
        codec_name).frame_resolution_sent.width = w ∧
    (VideoSenderReport.ctor bytes packets lost fir pli nack h w framerate reason changes rtt
        codec_name).frame_resolution_sent.height = h ∧
    (VideoReceiverReport.ctor storage bytes packets lost fir pli nack h w framerate
        framerate_output delay codec_name).frame_resolution_rcvd = Resolution.mk w h ∧
    (VideoReceiverReport.ctor storage bytes packets lost fir pli nack h w framerate
        framerate_output delay codec_name).frame_resolution_rcvd.width = w ∧
    (VideoReceiverReport.ctor storage bytes packets lost fir pli nack h w framerate
        framerate_output delay codec_name).frame_resolution_rcvd.height = h ∧
    (VideoSenderReport.ctor bytes packets lost fir pli nack 480 640 framerate reason changes rtt
        codec_name).frame_resolution_sent = Resolution.mk 640 480 ∧
    (VideoReceiverReport.ctor storage bytes packets lost fir pli nack 480 640 framerate
        framerate_output delay codec_name).frame_resolution_rcvd = Resolution.mk 640 480 :=
  ⟨rfl, rfl, rfl, rfl, rfl, rfl, rfl, rfl⟩

end base
end woogeen
